import Mathlib

/-!
Verification of the orchestration layer of `secret-stream-rs` (src/lib.rs).

The crate wraps the external `secret-handshake` handshakers (ClientHandshaker,
OwningClientHandshaker, ServerHandshaker, OwningServerHandshaker,
ServerHandshakerWithFilter, OwningServerHandshakerWithFilter) and, on success,
builds a `BoxDuplex` from the four key accessors of the handshake outcome.

Key material (keys, nonces, public keys, network identifiers) is represented
abstractly by natural numbers: the orchestration layer never inspects key
bytes, it only moves them from the outcome into the `BoxDuplex` constructor.
The transport is an abstract type parameter `S`, exactly as in the source.

The handshakers themselves live in the external `secret-handshake` crate and
are out of scope; they are modelled from the spec's interface contract
(an asynchronous unit yielding `(Outcome, Transport)` on success or
`(Error, Transport)` on failure, always with the original transport).
-/

namespace SecretStream

/-- The result of a successful handshake, as consumed by this crate: four key
accessors plus (for responder roles) the peer's verified longterm public key.
External type `secret_handshake::Outcome`; modelled from the spec interface. -/
structure Outcome where
  encryption_key : Nat
  decryption_key : Nat
  encryption_nonce : Nat
  decryption_nonce : Nat
  peer_longterm_pk : Nat
deriving DecidableEq, Repr

/-- Opaque error of the cryptographic handshake (external type
`secret_handshake::errors::HandshakeError`). -/
structure HandshakeError where
  code : Nat
deriving DecidableEq, Repr

/-- The encrypted duplex stream produced by the external `box_stream` crate.
`BoxDuplex::new(stream, enc_key, dec_key, enc_nonce, dec_nonce)` stores the
transport and the four pieces of key material. -/
structure BoxDuplex (S : Type) where
  stream : S
  encryption_key : Nat
  decryption_key : Nat
  encryption_nonce : Nat
  decryption_nonce : Nat

/-- The Framer constructor: `BoxDuplex::new(transport, ek, dk, en, dn)`. -/
def BoxDuplex.new {S : Type} (stream : S) (ek dk en dn : Nat) : BoxDuplex S :=
  ⟨stream, ek, dk, en, dn⟩

/-- `futures_core::Async`: a poll either yields a value or is pending. -/
inductive Async (T : Type) where
  | pending : Async T
  | ready (x : T) : Async T
deriving DecidableEq

/-- `futures_core::Poll<T, E> = Result<Async<T>, E>`. -/
abbrev Poll (T E : Type) := Except E (Async T)

/-- How the environment resolves one poll of a (non-gated) handshaker:
still pending, cryptographic success with an outcome, or a handshake error. -/
inductive HsStep where
  | pending : HsStep
  | success (o : Outcome) : HsStep
  | failure (e : HandshakeError) : HsStep
deriving DecidableEq

end SecretStream

namespace SecretStream

/-- State of `secret_handshake::ClientHandshaker` as far as this crate is
concerned: the transport plus the borrowed key material. -/
structure ClientHandshaker (S : Type) where
  stream : S
  network_identifier : Nat
  client_longterm_pk : Nat
  client_longterm_sk : Nat
  client_ephemeral_pk : Nat
  client_ephemeral_sk : Nat
  server_longterm_pk : Nat

/-- `ClientHandshaker::new`: stores the transport and keys. -/
def ClientHandshaker.new {S : Type} (stream : S) (ni cpk csk cepk cesk spk : Nat) :
    ClientHandshaker S :=
  ⟨stream, ni, cpk, csk, cepk, cesk, spk⟩

/-- Modelled from the spec: the Authenticator (external `secret-handshake`
crate) is "a single asynchronous operation yielding `(Outcome, Transport)` on
success or `(Error, Transport)` on failure", where the transport is the
original one supplied at construction. One poll, resolved by the environment
step `step`. -/
def ClientHandshaker.poll {S : Type} (hs : ClientHandshaker S) (step : HsStep) :
    Poll (Outcome × S) (HandshakeError × S) :=
  match step with
  | .pending => .ok .pending
  | .success o => .ok (.ready (o, hs.stream))
  | .failure e => .error (e, hs.stream)

/-- State of `secret_handshake::OwningClientHandshaker`: identical fields,
key material held by value. -/
structure OwningClientHandshaker (S : Type) where
  stream : S
  network_identifier : Nat
  client_longterm_pk : Nat
  client_longterm_sk : Nat
  client_ephemeral_pk : Nat
  client_ephemeral_sk : Nat
  server_longterm_pk : Nat

/-- `OwningClientHandshaker::new`: stores the transport and copies the keys. -/
def OwningClientHandshaker.new {S : Type} (stream : S) (ni cpk csk cepk cesk spk : Nat) :
    OwningClientHandshaker S :=
  ⟨stream, ni, cpk, csk, cepk, cesk, spk⟩

/-- Modelled from the spec: same Authenticator contract as
`ClientHandshaker.poll`, for the key-owning variant. -/
def OwningClientHandshaker.poll {S : Type} (hs : OwningClientHandshaker S) (step : HsStep) :
    Poll (Outcome × S) (HandshakeError × S) :=
  match step with
  | .pending => .ok .pending
  | .success o => .ok (.ready (o, hs.stream))
  | .failure e => .error (e, hs.stream)

/-- State of `secret_handshake::ServerHandshaker`. -/
structure ServerHandshaker (S : Type) where
  stream : S
  network_identifier : Nat
  server_longterm_pk : Nat
  server_longterm_sk : Nat
  server_ephemeral_pk : Nat
  server_ephemeral_sk : Nat

/-- `ServerHandshaker::new`: stores the transport and keys. -/
def ServerHandshaker.new {S : Type} (stream : S) (ni spk ssk sepk sesk : Nat) :
    ServerHandshaker S :=
  ⟨stream, ni, spk, ssk, sepk, sesk⟩

/-- Modelled from the spec: Authenticator contract, server side. -/
def ServerHandshaker.poll {S : Type} (hs : ServerHandshaker S) (step : HsStep) :
    Poll (Outcome × S) (HandshakeError × S) :=
  match step with
  | .pending => .ok .pending
  | .success o => .ok (.ready (o, hs.stream))
  | .failure e => .error (e, hs.stream)

/-- State of `secret_handshake::OwningServerHandshaker`. -/
structure OwningServerHandshaker (S : Type) where
  stream : S
  network_identifier : Nat
  server_longterm_pk : Nat
  server_longterm_sk : Nat
  server_ephemeral_pk : Nat
  server_ephemeral_sk : Nat

/-- `OwningServerHandshaker::new`: stores the transport and copies the keys. -/
def OwningServerHandshaker.new {S : Type} (stream : S) (ni spk ssk sepk sesk : Nat) :
    OwningServerHandshaker S :=
  ⟨stream, ni, spk, ssk, sepk, sesk⟩

/-- Modelled from the spec: Authenticator contract, key-owning server side. -/
def OwningServerHandshaker.poll {S : Type} (hs : OwningServerHandshaker S) (step : HsStep) :
    Poll (Outcome × S) (HandshakeError × S) :=
  match step with
  | .pending => .ok .pending
  | .success o => .ok (.ready (o, hs.stream))
  | .failure e => .error (e, hs.stream)

/-- Modelled from the spec: the error type of the gated handshake (external
type `secret_handshake::errors::FilteringHandshakeError<FilterErr>`). The spec
names three mutually exclusive failure classes: cryptographic handshake
failure, authorization denial by the predicate, and failure of the
predicate's own asynchronous evaluation. -/
inductive FilteringHandshakeError (F : Type) where
  | handshakeFailed (e : HandshakeError) : FilteringHandshakeError F
  | unauthorizedClient : FilteringHandshakeError F
  | filterFnFailed (e : F) : FilteringHandshakeError F
deriving DecidableEq

/-- Resolution of the one-shot authorization predicate's asynchronous boolean
decision: accept, reject, or failure of the decision mechanism itself. -/
inductive FilterDecision (F : Type) where
  | accept : FilterDecision F
  | reject : FilterDecision F
  | failure (e : F) : FilterDecision F
deriving DecidableEq

/-- How the environment resolves one poll of a gated handshaker: still
pending, overall success with an outcome, or one of the three gated failure
classes. -/
inductive GatedStep (F : Type) where
  | pending : GatedStep F
  | success (o : Outcome) : GatedStep F
  | failure (e : FilteringHandshakeError F) : GatedStep F

/-- State of `secret_handshake::ServerHandshakerWithFilter`: the transport,
the one-shot filter function, and the key material. The filter function maps
the peer's verified longterm public key to an asynchronous boolean decision. -/
structure ServerHandshakerWithFilter (S F : Type) where
  stream : S
  filter_fn : Nat → FilterDecision F
  network_identifier : Nat
  server_longterm_pk : Nat
  server_longterm_sk : Nat
  server_ephemeral_pk : Nat
  server_ephemeral_sk : Nat

/-- `ServerHandshakerWithFilter::new`: stores transport, filter and keys. -/
def ServerHandshakerWithFilter.new {S F : Type} (stream : S)
    (filter_fn : Nat → FilterDecision F) (ni spk ssk sepk sesk : Nat) :
    ServerHandshakerWithFilter S F :=
  ⟨stream, filter_fn, ni, spk, ssk, sepk, sesk⟩

/-- Modelled from the spec: one poll of the gated handshake unit (external
`secret-handshake` crate), resolved by the environment step; the transport
returned alongside an error or an outcome is the original one. -/
def ServerHandshakerWithFilter.poll {S F : Type} (hs : ServerHandshakerWithFilter S F)
    (step : GatedStep F) : Poll (Outcome × S) (FilteringHandshakeError F × S) :=
  match step with
  | .pending => .ok .pending
  | .success o => .ok (.ready (o, hs.stream))
  | .failure e => .error (e, hs.stream)

/-- Modelled from the spec: the complete gated handshake, as a function of how
the cryptographic exchange resolves. The gated unit "is expected to invoke
this function only after the peer's identity has been cryptographically
verified" and to map reject to an authorization-denied error, accept to the
Responder success case, and a failed decision to its own error variant. The
second component records the list of arguments the filter function was
invoked on, in order. -/
def ServerHandshakerWithFilter.run {S F : Type} (hs : ServerHandshakerWithFilter S F)
    (crypto : Except HandshakeError Outcome) :
    (Except (FilteringHandshakeError F × S) (Outcome × S)) × List Nat :=
  match crypto with
  | .error e => (.error (.handshakeFailed e, hs.stream), [])
  | .ok o =>
    match hs.filter_fn o.peer_longterm_pk with
    | .accept => (.ok (o, hs.stream), [o.peer_longterm_pk])
    | .reject => (.error (.unauthorizedClient, hs.stream), [o.peer_longterm_pk])
    | .failure f => (.error (.filterFnFailed f, hs.stream), [o.peer_longterm_pk])

/-- State of `secret_handshake::OwningServerHandshakerWithFilter`. -/
structure OwningServerHandshakerWithFilter (S F : Type) where
  stream : S
  filter_fn : Nat → FilterDecision F
  network_identifier : Nat
  server_longterm_pk : Nat
  server_longterm_sk : Nat
  server_ephemeral_pk : Nat
  server_ephemeral_sk : Nat

/-- `OwningServerHandshakerWithFilter::new`: stores transport, filter and
copies the keys. -/
def OwningServerHandshakerWithFilter.new {S F : Type} (stream : S)
    (filter_fn : Nat → FilterDecision F) (ni spk ssk sepk sesk : Nat) :
    OwningServerHandshakerWithFilter S F :=
  ⟨stream, filter_fn, ni, spk, ssk, sepk, sesk⟩

/-- Modelled from the spec: gated handshake poll, key-owning variant. -/
def OwningServerHandshakerWithFilter.poll {S F : Type}
    (hs : OwningServerHandshakerWithFilter S F) (step : GatedStep F) :
    Poll (Outcome × S) (FilteringHandshakeError F × S) :=
  match step with
  | .pending => .ok .pending
  | .success o => .ok (.ready (o, hs.stream))
  | .failure e => .error (e, hs.stream)

/-- Modelled from the spec: complete gated handshake, key-owning variant,
with the list of filter invocations. -/
def OwningServerHandshakerWithFilter.run {S F : Type}
    (hs : OwningServerHandshakerWithFilter S F)
    (crypto : Except HandshakeError Outcome) :
    (Except (FilteringHandshakeError F × S) (Outcome × S)) × List Nat :=
  match crypto with
  | .error e => (.error (.handshakeFailed e, hs.stream), [])
  | .ok o =>
    match hs.filter_fn o.peer_longterm_pk with
    | .accept => (.ok (o, hs.stream), [o.peer_longterm_pk])
    | .reject => (.error (.unauthorizedClient, hs.stream), [o.peer_longterm_pk])
    | .failure f => (.error (.filterFnFailed f, hs.stream), [o.peer_longterm_pk])

/-! The six orchestration roles of src/lib.rs. Each `poll` is embedded
together with the number of `BoxDuplex::new` call sites evaluated on that
path (always the source's single call site, in the Ready branch), so that
"the Framer constructor is called exactly once / not at all" is a statement
about the embedding rather than a syntactic observation. -/

/-- `pub struct Client<'a, S>(ClientHandshaker<'a, S>)` (src/lib.rs line 27). -/
structure Client (S : Type) where
  inner : ClientHandshaker S

/-- `Client::new` (src/lib.rs lines 35-50): wraps `ClientHandshaker::new`. -/
def Client.new {S : Type} (stream : S) (network_identifier : Nat)
    (client_longterm_pk client_longterm_sk : Nat)
    (client_ephemeral_pk client_ephemeral_sk : Nat)
    (server_longterm_pk : Nat) : Client S :=
  ⟨ClientHandshaker.new stream network_identifier client_longterm_pk
      client_longterm_sk client_ephemeral_pk client_ephemeral_sk
      server_longterm_pk⟩

/-- `impl Future for Client`, `poll` (src/lib.rs lines 57-64), instrumented
with the number of `BoxDuplex::new` calls made on the taken path:
`try_ready!` on the inner handshaker, then one `BoxDuplex::new(stream,
encryption_key, decryption_key, encryption_nonce, decryption_nonce)`. -/
def Client.pollCount {S : Type} (c : Client S) (step : HsStep) :
    Poll (BoxDuplex S) (HandshakeError × S) × Nat :=
  match c.inner.poll step with
  | .error es => (.error es, 0)
  | .ok .pending => (.ok .pending, 0)
  | .ok (.ready (outcome, stream)) =>
      (.ok (.ready (BoxDuplex.new stream
                      outcome.encryption_key
                      outcome.decryption_key
                      outcome.encryption_nonce
                      outcome.decryption_nonce)), 1)

/-- `Client::poll`: the poll result alone. -/
def Client.poll {S : Type} (c : Client S) (step : HsStep) :
    Poll (BoxDuplex S) (HandshakeError × S) :=
  (c.pollCount step).1

/-- `pub struct OwningClient<S>(OwningClientHandshaker<S>)` (line 71). -/
structure OwningClient (S : Type) where
  inner : OwningClientHandshaker S

/-- `OwningClient::new` (lines 81-96): wraps `OwningClientHandshaker::new`. -/
def OwningClient.new {S : Type} (stream : S) (network_identifier : Nat)
    (client_longterm_pk client_longterm_sk : Nat)
    (client_ephemeral_pk client_ephemeral_sk : Nat)
    (server_longterm_pk : Nat) : OwningClient S :=
  ⟨OwningClientHandshaker.new stream network_identifier client_longterm_pk
      client_longterm_sk client_ephemeral_pk client_ephemeral_sk
      server_longterm_pk⟩

/-- `impl Future for OwningClient`, `poll` (lines 103-110), instrumented. -/
def OwningClient.pollCount {S : Type} (c : OwningClient S) (step : HsStep) :
    Poll (BoxDuplex S) (HandshakeError × S) × Nat :=
  match c.inner.poll step with
  | .error es => (.error es, 0)
  | .ok .pending => (.ok .pending, 0)
  | .ok (.ready (outcome, stream)) =>
      (.ok (.ready (BoxDuplex.new stream
                      outcome.encryption_key
                      outcome.decryption_key
                      outcome.encryption_nonce
                      outcome.decryption_nonce)), 1)

/-- `OwningClient::poll`: the poll result alone. -/
def OwningClient.poll {S : Type} (c : OwningClient S) (step : HsStep) :
    Poll (BoxDuplex S) (HandshakeError × S) :=
  (c.pollCount step).1

/-- `pub struct Server<'a, S>(ServerHandshaker<'a, S>)` (line 115). -/
structure Server (S : Type) where
  inner : ServerHandshaker S

/-- `Server::new` (lines 124-137): wraps `ServerHandshaker::new`. -/
def Server.new {S : Type} (stream : S) (network_identifier : Nat)
    (server_longterm_pk server_longterm_sk : Nat)
    (server_ephemeral_pk server_ephemeral_sk : Nat) : Server S :=
  ⟨ServerHandshaker.new stream network_identifier server_longterm_pk
      server_longterm_sk server_ephemeral_pk server_ephemeral_sk⟩

/-- `impl Future for Server`, `poll` (lines 146-154), instrumented. On
success the item is the pair of the duplex and `outcome.peer_longterm_pk()`. -/
def Server.pollCount {S : Type} (c : Server S) (step : HsStep) :
    Poll (BoxDuplex S × Nat) (HandshakeError × S) × Nat :=
  match c.inner.poll step with
  | .error es => (.error es, 0)
  | .ok .pending => (.ok .pending, 0)
  | .ok (.ready (outcome, stream)) =>
      (.ok (.ready (BoxDuplex.new stream
                      outcome.encryption_key
                      outcome.decryption_key
                      outcome.encryption_nonce
                      outcome.decryption_nonce,
                    outcome.peer_longterm_pk)), 1)

/-- `Server::poll`: the poll result alone. -/
def Server.poll {S : Type} (c : Server S) (step : HsStep) :
    Poll (BoxDuplex S × Nat) (HandshakeError × S) :=
  (c.pollCount step).1

/-- `pub struct OwningServer<S>(OwningServerHandshaker<S>)` (line 161). -/
structure OwningServer (S : Type) where
  inner : OwningServerHandshaker S

/-- `OwningServer::new` (lines 172-185): wraps `OwningServerHandshaker::new`. -/
def OwningServer.new {S : Type} (stream : S) (network_identifier : Nat)
    (server_longterm_pk server_longterm_sk : Nat)
    (server_ephemeral_pk server_ephemeral_sk : Nat) : OwningServer S :=
  ⟨OwningServerHandshaker.new stream network_identifier server_longterm_pk
      server_longterm_sk server_ephemeral_pk server_ephemeral_sk⟩

/-- `impl Future for OwningServer`, `poll` (lines 194-202), instrumented. -/
def OwningServer.pollCount {S : Type} (c : OwningServer S) (step : HsStep) :
    Poll (BoxDuplex S × Nat) (HandshakeError × S) × Nat :=
  match c.inner.poll step with
  | .error es => (.error es, 0)
  | .ok .pending => (.ok .pending, 0)
  | .ok (.ready (outcome, stream)) =>
      (.ok (.ready (BoxDuplex.new stream
                      outcome.encryption_key
                      outcome.decryption_key
                      outcome.encryption_nonce
                      outcome.decryption_nonce,
                    outcome.peer_longterm_pk)), 1)

/-- `OwningServer::poll`: the poll result alone. -/
def OwningServer.poll {S : Type} (c : OwningServer S) (step : HsStep) :
    Poll (BoxDuplex S × Nat) (HandshakeError × S) :=
  (c.pollCount step).1

/-- `pub struct ServerFilter<'a, S, FilterFn, AsyncBool>(...)` (line 207). -/
structure ServerFilter (S F : Type) where
  inner : ServerHandshakerWithFilter S F

/-- `ServerFilter::new` (lines 223-238): wraps
`ServerHandshakerWithFilter::new`. -/
def ServerFilter.new {S F : Type} (stream : S)
    (filter_fn : Nat → FilterDecision F) (network_identifier : Nat)
    (server_longterm_pk server_longterm_sk : Nat)
    (server_ephemeral_pk server_ephemeral_sk : Nat) : ServerFilter S F :=
  ⟨ServerHandshakerWithFilter.new stream filter_fn network_identifier
      server_longterm_pk server_longterm_sk server_ephemeral_pk
      server_ephemeral_sk⟩

/-- `impl Future for ServerFilter`, `poll` (lines 251-259), instrumented.
The error type is `(FilteringHandshakeError<AsyncBool::Error>, S)`. -/
def ServerFilter.pollCount {S F : Type} (c : ServerFilter S F) (step : GatedStep F) :
    Poll (BoxDuplex S × Nat) (FilteringHandshakeError F × S) × Nat :=
  match c.inner.poll step with
  | .error es => (.error es, 0)
  | .ok .pending => (.ok .pending, 0)
  | .ok (.ready (outcome, stream)) =>
      (.ok (.ready (BoxDuplex.new stream
                      outcome.encryption_key
                      outcome.decryption_key
                      outcome.encryption_nonce
                      outcome.decryption_nonce,
                    outcome.peer_longterm_pk)), 1)

/-- `ServerFilter::poll`: the poll result alone. -/
def ServerFilter.poll {S F : Type} (c : ServerFilter S F) (step : GatedStep F) :
    Poll (BoxDuplex S × Nat) (FilteringHandshakeError F × S) :=
  (c.pollCount step).1

/-- `pub struct OwningServerFilter<S, FilterFn, AsyncBool>(...)` (line 266). -/
structure OwningServerFilter (S F : Type) where
  inner : OwningServerHandshakerWithFilter S F

/-- `OwningServerFilter::new` (lines 283-298): wraps
`OwningServerHandshakerWithFilter::new`. -/
def OwningServerFilter.new {S F : Type} (stream : S)
    (filter_fn : Nat → FilterDecision F) (network_identifier : Nat)
    (server_longterm_pk server_longterm_sk : Nat)
    (server_ephemeral_pk server_ephemeral_sk : Nat) : OwningServerFilter S F :=
  ⟨OwningServerHandshakerWithFilter.new stream filter_fn network_identifier
      server_longterm_pk server_longterm_sk server_ephemeral_pk
      server_ephemeral_sk⟩

/-- `impl Future for OwningServerFilter`, `poll` (lines 311-318),
instrumented. -/
def OwningServerFilter.pollCount {S F : Type} (c : OwningServerFilter S F)
    (step : GatedStep F) :
    Poll (BoxDuplex S × Nat) (FilteringHandshakeError F × S) × Nat :=
  match c.inner.poll step with
  | .error es => (.error es, 0)
  | .ok .pending => (.ok .pending, 0)
  | .ok (.ready (outcome, stream)) =>
      (.ok (.ready (BoxDuplex.new stream
                      outcome.encryption_key
                      outcome.decryption_key
                      outcome.encryption_nonce
                      outcome.decryption_nonce,
                    outcome.peer_longterm_pk)), 1)

/-- `OwningServerFilter::poll`: the poll result alone. -/
def OwningServerFilter.poll {S F : Type} (c : OwningServerFilter S F)
    (step : GatedStep F) :
    Poll (BoxDuplex S × Nat) (FilteringHandshakeError F × S) :=
  (c.pollCount step).1

/-- The caller's drive loop: poll with successive environment steps until the
future resolves, accumulating the number of `BoxDuplex::new` calls. Returns
`none` when the step list runs out before resolution. -/
def driveLoop {Step A E : Type} (poll : Step → Poll A E × Nat) :
    List Step → Option (Except E A) × Nat
  | [] => (none, 0)
  | step :: rest =>
    match poll step with
    | (.ok .pending, n) =>
        let r := driveLoop poll rest
        (r.1, n + r.2)
    | (.ok (.ready a), n) => (some (.ok a), n)
    | (.error e, n) => (some (.error e), n)

/-- C1: for every role (Client, OwningClient, Server, OwningServer,
ServerFilter, OwningServerFilter), when the inner handshake completes
successfully with an outcome and a stream, poll returns Ready of an
EncryptedDuplex constructed by exactly one call to the Framer constructor
with arguments in the order (stream, encryption key, decryption key,
encryption nonce, decryption nonce). -/
theorem claim_C1_framer_called_once_with_outcome_keys :
    ∀ (S F : Type) (c1 : Client S) (c2 : OwningClient S) (c3 : Server S)
      (c4 : OwningServer S) (c5 : ServerFilter S F)
      (c6 : OwningServerFilter S F) (o : Outcome),
      c1.pollCount (.success o) =
        (.ok (.ready (BoxDuplex.new c1.inner.stream o.encryption_key
          o.decryption_key o.encryption_nonce o.decryption_nonce)), 1) ∧
      c2.pollCount (.success o) =
        (.ok (.ready (BoxDuplex.new c2.inner.stream o.encryption_key
          o.decryption_key o.encryption_nonce o.decryption_nonce)), 1) ∧
      c3.pollCount (.success o) =
        (.ok (.ready (BoxDuplex.new c3.inner.stream o.encryption_key
          o.decryption_key o.encryption_nonce o.decryption_nonce,
          o.peer_longterm_pk)), 1) ∧
      c4.pollCount (.success o) =
        (.ok (.ready (BoxDuplex.new c4.inner.stream o.encryption_key
          o.decryption_key o.encryption_nonce o.decryption_nonce,
          o.peer_longterm_pk)), 1) ∧
      c5.pollCount (.success o) =
        (.ok (.ready (BoxDuplex.new c5.inner.stream o.encryption_key
          o.decryption_key o.encryption_nonce o.decryption_nonce,
          o.peer_longterm_pk)), 1) ∧
      c6.pollCount (.success o) =
        (.ok (.ready (BoxDuplex.new c6.inner.stream o.encryption_key
          o.decryption_key o.encryption_nonce o.decryption_nonce,
          o.peer_longterm_pk)), 1) := by
  intro S F c1 c2 c3 c4 c5 c6 o
  exact ⟨rfl, rfl, rfl, rfl, rfl, rfl⟩

/-- C2: for every role and every failure of the underlying handshake, poll
resolves to an error value paired with the transport originally supplied to
the role's constructor — the very same one — and no EncryptedDuplex is
constructed on that path (framer call count 0). -/
theorem claim_C2_failure_returns_original_transport :
    ∀ (S F : Type) (s : S) (ni a b c d e : Nat)
      (f : Nat → FilterDecision F) (he : HandshakeError)
      (ge : FilteringHandshakeError F),
      (Client.new s ni a b c d e).pollCount (.failure he) =
        (.error (he, s), 0) ∧
      (OwningClient.new s ni a b c d e).pollCount (.failure he) =
        (.error (he, s), 0) ∧
      (Server.new s ni a b c d).pollCount (.failure he) =
        (.error (he, s), 0) ∧
      (OwningServer.new s ni a b c d).pollCount (.failure he) =
        (.error (he, s), 0) ∧
      (ServerFilter.new s f ni a b c d).pollCount (.failure ge) =
        (.error (ge, s), 0) ∧
      (OwningServerFilter.new s f ni a b c d).pollCount (.failure ge) =
        (.error (ge, s), 0) := by
  intro S F s ni a b c d e f he ge
  exact ⟨rfl, rfl, rfl, rfl, rfl, rfl⟩

/-- C9: for every role the framing step is synchronous and infallible: on a
successful handshake outcome, poll immediately yields Ready of a duplex —
it is never pending and never an error on that path. -/
theorem claim_C9_framing_synchronous_infallible :
    ∀ (S F : Type) (c1 : Client S) (c2 : OwningClient S) (c3 : Server S)
      (c4 : OwningServer S) (c5 : ServerFilter S F)
      (c6 : OwningServerFilter S F) (o : Outcome),
      (∃ d, c1.poll (.success o) = .ok (.ready d)) ∧
      (∃ d, c2.poll (.success o) = .ok (.ready d)) ∧
      (∃ d, c3.poll (.success o) = .ok (.ready d)) ∧
      (∃ d, c4.poll (.success o) = .ok (.ready d)) ∧
      (∃ d, c5.poll (.success o) = .ok (.ready d)) ∧
      (∃ d, c6.poll (.success o) = .ok (.ready d)) := by
  intro S F c1 c2 c3 c4 c5 c6 o
  exact ⟨⟨_, rfl⟩, ⟨_, rfl⟩, ⟨_, rfl⟩, ⟨_, rfl⟩, ⟨_, rfl⟩, ⟨_, rfl⟩⟩

/-- C10: for every role, the constructor `new` is total and effect-free at
the public interface: it returns a role value that merely aggregates its
arguments, the supplied transport is stored unchanged (never read, written or
replaced), and the handshake has not advanced — a first poll on which the
environment has not resolved anything is still pending, with no framer call
and no failure. -/
theorem claim_C10_constructors_total_effect_free :
    ∀ (S F : Type) (s : S) (ni a b c d e : Nat)
      (f : Nat → FilterDecision F),
      Client.new s ni a b c d e = ⟨⟨s, ni, a, b, c, d, e⟩⟩ ∧
      (Client.new s ni a b c d e).inner.stream = s ∧
      (Client.new s ni a b c d e).pollCount .pending = (.ok .pending, 0) ∧
      OwningClient.new s ni a b c d e = ⟨⟨s, ni, a, b, c, d, e⟩⟩ ∧
      (OwningClient.new s ni a b c d e).inner.stream = s ∧
      (OwningClient.new s ni a b c d e).pollCount .pending =
        (.ok .pending, 0) ∧
      Server.new s ni a b c d = ⟨⟨s, ni, a, b, c, d⟩⟩ ∧
      (Server.new s ni a b c d).inner.stream = s ∧
      (Server.new s ni a b c d).pollCount .pending = (.ok .pending, 0) ∧
      OwningServer.new s ni a b c d = ⟨⟨s, ni, a, b, c, d⟩⟩ ∧
      (OwningServer.new s ni a b c d).inner.stream = s ∧
      (OwningServer.new s ni a b c d).pollCount .pending =
        (.ok .pending, 0) ∧
      ServerFilter.new s f ni a b c d = ⟨⟨s, f, ni, a, b, c, d⟩⟩ ∧
      (ServerFilter.new s f ni a b c d).inner.stream = s ∧
      (ServerFilter.new s f ni a b c d).pollCount .pending =
        (.ok .pending, 0) ∧
      OwningServerFilter.new s f ni a b c d = ⟨⟨s, f, ni, a, b, c, d⟩⟩ ∧
      (OwningServerFilter.new s f ni a b c d).inner.stream = s ∧
      (OwningServerFilter.new s f ni a b c d).pollCount .pending =
        (.ok .pending, 0) := by
  intro S F s ni a b c d e f
  refine ⟨rfl, rfl, rfl, rfl, rfl, rfl, rfl, rfl, rfl, rfl, rfl, rfl,
    rfl, rfl, rfl, rfl, rfl, rfl⟩

/-- C3: the resolved shapes are exhaustive: a responder role's success value
is the pair of the duplex and the peer's longterm public key from the
outcome, an initiator role's success value is the duplex alone, every
failure is the typed error paired with the transport, and apart from
pending there is no other outcome shape. -/
theorem claim_C3_resolution_shapes_exhaustive :
    ∀ (S F : Type) (c1 : Client S) (c2 : OwningClient S) (c3 : Server S)
      (c4 : OwningServer S) (c5 : ServerFilter S F)
      (c6 : OwningServerFilter S F),
      (∀ step, (step = .pending ∧ c1.poll step = .ok .pending) ∨
        (∃ e, step = .failure e ∧
          c1.poll step = .error (e, c1.inner.stream)) ∨
        (∃ o, step = .success o ∧ c1.poll step =
          .ok (.ready (BoxDuplex.new c1.inner.stream o.encryption_key
            o.decryption_key o.encryption_nonce o.decryption_nonce)))) ∧
      (∀ step, (step = .pending ∧ c2.poll step = .ok .pending) ∨
        (∃ e, step = .failure e ∧
          c2.poll step = .error (e, c2.inner.stream)) ∨
        (∃ o, step = .success o ∧ c2.poll step =
          .ok (.ready (BoxDuplex.new c2.inner.stream o.encryption_key
            o.decryption_key o.encryption_nonce o.decryption_nonce)))) ∧
      (∀ step, (step = .pending ∧ c3.poll step = .ok .pending) ∨
        (∃ e, step = .failure e ∧
          c3.poll step = .error (e, c3.inner.stream)) ∨
        (∃ o, step = .success o ∧ c3.poll step =
          .ok (.ready (BoxDuplex.new c3.inner.stream o.encryption_key
            o.decryption_key o.encryption_nonce o.decryption_nonce,
            o.peer_longterm_pk)))) ∧
      (∀ step, (step = .pending ∧ c4.poll step = .ok .pending) ∨
        (∃ e, step = .failure e ∧
          c4.poll step = .error (e, c4.inner.stream)) ∨
        (∃ o, step = .success o ∧ c4.poll step =
          .ok (.ready (BoxDuplex.new c4.inner.stream o.encryption_key
            o.decryption_key o.encryption_nonce o.decryption_nonce,
            o.peer_longterm_pk)))) ∧
      (∀ step, (step = .pending ∧ c5.poll step = .ok .pending) ∨
        (∃ e, step = .failure e ∧
          c5.poll step = .error (e, c5.inner.stream)) ∨
        (∃ o, step = .success o ∧ c5.poll step =
          .ok (.ready (BoxDuplex.new c5.inner.stream o.encryption_key
            o.decryption_key o.encryption_nonce o.decryption_nonce,
            o.peer_longterm_pk)))) ∧
      (∀ step, (step = .pending ∧ c6.poll step = .ok .pending) ∨
        (∃ e, step = .failure e ∧
          c6.poll step = .error (e, c6.inner.stream)) ∨
        (∃ o, step = .success o ∧ c6.poll step =
          .ok (.ready (BoxDuplex.new c6.inner.stream o.encryption_key
            o.decryption_key o.encryption_nonce o.decryption_nonce,
            o.peer_longterm_pk)))) := by
  intro S F c1 c2 c3 c4 c5 c6
  refine ⟨?_, ?_, ?_, ?_, ?_, ?_⟩ <;> intro step <;> cases step <;>
    first
      | exact Or.inl ⟨rfl, rfl⟩
      | exact Or.inr (Or.inl ⟨_, rfl, rfl⟩)
      | exact Or.inr (Or.inr ⟨_, rfl, rfl⟩)

/-- C4: the gated roles' error type distinguishes three mutually exclusive
failure classes — cryptographic handshake failure, authorization denial, and
failure of the predicate's own asynchronous evaluation — and both gated
roles surface each class intact in their error channel. -/
theorem claim_C4_gated_error_three_classes :
    ∀ (S F : Type) (c5 : ServerFilter S F) (c6 : OwningServerFilter S F)
      (e : HandshakeError) (f : F),
      ((FilteringHandshakeError.handshakeFailed e : FilteringHandshakeError F)
        ≠ .unauthorizedClient) ∧
      ((FilteringHandshakeError.handshakeFailed e : FilteringHandshakeError F)
        ≠ .filterFnFailed f) ∧
      ((FilteringHandshakeError.unauthorizedClient : FilteringHandshakeError F)
        ≠ .filterFnFailed f) ∧
      (∀ err : FilteringHandshakeError F,
        c5.poll (.failure err) = .error (err, c5.inner.stream)) ∧
      (∀ err : FilteringHandshakeError F,
        c6.poll (.failure err) = .error (err, c6.inner.stream)) := by
  intro S F c5 c6 e f
  refine ⟨?_, ?_, ?_, fun err => rfl, fun err => rfl⟩ <;> intro h <;> exact nomatch h

/-- C6: for identical inputs, the borrowing role and its key-owning
counterpart resolve to observably identical outcomes: the same poll result
on every environment step (hence the same success/failure classification,
the same duplex key material, and for responder roles the same peer public
key), and for the gated pair the same complete gated run including the
filter invocations. -/
theorem claim_C6_owning_variant_equivalence :
    ∀ (S F : Type) (s : S) (ni a b c d e : Nat) (f : Nat → FilterDecision F)
      (step : HsStep) (gstep : GatedStep F)
      (crypto : Except HandshakeError Outcome),
      (Client.new s ni a b c d e).poll step =
        (OwningClient.new s ni a b c d e).poll step ∧
      (Server.new s ni a b c d).poll step =
        (OwningServer.new s ni a b c d).poll step ∧
      (ServerFilter.new s f ni a b c d).poll gstep =
        (OwningServerFilter.new s f ni a b c d).poll gstep ∧
      (ServerFilter.new s f ni a b c d).inner.run crypto =
        (OwningServerFilter.new s f ni a b c d).inner.run crypto := by
  intro S F s ni a b c d e f step gstep crypto
  refine ⟨?_, ?_, ?_, ?_⟩
  · cases step <;> rfl
  · cases step <;> rfl
  · cases gstep <;> rfl
  · cases crypto with
    | error he => rfl
    | ok o =>
        cases hf : f o.peer_longterm_pk <;>
          simp [ServerFilter.new, OwningServerFilter.new,
            ServerHandshakerWithFilter.new, OwningServerHandshakerWithFilter.new,
            ServerHandshakerWithFilter.run, OwningServerHandshakerWithFilter.run,
            hf]

/-- C7: for every gated responder role, the authorization predicate is
invoked exactly once when cryptographic authentication succeeds — and then
only with the verified peer identity from the outcome — and zero times when
cryptographic authentication fails first. -/
theorem claim_C7_gate_ordering :
    ∀ (S F : Type) (c5 : ServerFilter S F) (c6 : OwningServerFilter S F),
      (∀ e, (c5.inner.run (.error e)).2 = []) ∧
      (∀ o, (c5.inner.run (.ok o)).2 = [o.peer_longterm_pk]) ∧
      (∀ e, (c6.inner.run (.error e)).2 = []) ∧
      (∀ o, (c6.inner.run (.ok o)).2 = [o.peer_longterm_pk]) := by
  intro S F c5 c6
  refine ⟨fun e => rfl, fun o => ?_, fun e => rfl, fun o => ?_⟩
  · cases hf : c5.inner.filter_fn o.peer_longterm_pk <;>
      simp [ServerHandshakerWithFilter.run, hf]
  · cases hf : c6.inner.filter_fn o.peer_longterm_pk <;>
      simp [OwningServerHandshakerWithFilter.run, hf]

/-- C5: for every gated responder role, when the authorization predicate
resolves to reject the gated handshake resolves to the authorization-denied
error paired with the transport originally supplied to the constructor, and
the role's poll on that resolution surfaces the same error with the same
transport while making zero framer calls — no EncryptedDuplex is
constructed. -/
theorem claim_C5_denial_short_circuits_framing
    {S F : Type} (s : S) (ni a b c d : Nat) (f : Nat → FilterDecision F)
    (o : Outcome) (h : f o.peer_longterm_pk = .reject) :
    ((ServerFilter.new s f ni a b c d).inner.run (.ok o)).1 =
      .error (.unauthorizedClient, s) ∧
    (ServerFilter.new s f ni a b c d).pollCount
        (.failure .unauthorizedClient) =
      (.error (.unauthorizedClient, s), 0) ∧
    ((OwningServerFilter.new s f ni a b c d).inner.run (.ok o)).1 =
      .error (.unauthorizedClient, s) ∧
    (OwningServerFilter.new s f ni a b c d).pollCount
        (.failure .unauthorizedClient) =
      (.error (.unauthorizedClient, s), 0) := by
  refine ⟨?_, rfl, ?_, rfl⟩
  · simp [ServerFilter.new, ServerHandshakerWithFilter.new,
      ServerHandshakerWithFilter.run, h]
  · simp [OwningServerFilter.new, OwningServerHandshakerWithFilter.new,
      OwningServerHandshakerWithFilter.run, h]

/-- Witness for C5 at a concrete input: transport 0, an always-rejecting
filter over `F = Unit`, and a concrete outcome. -/
theorem claim_C5_denial_witness :
    (fun _ : Nat => (FilterDecision.reject : FilterDecision Unit))
        (Outcome.mk 6 7 8 9 10).peer_longterm_pk = .reject ∧
    (((ServerFilter.new (0 : Nat)
        (fun _ : Nat => (FilterDecision.reject : FilterDecision Unit))
        1 2 3 4 5).inner.run (.ok (Outcome.mk 6 7 8 9 10))).1 =
      .error (.unauthorizedClient, 0) ∧
    (ServerFilter.new (0 : Nat)
        (fun _ : Nat => (FilterDecision.reject : FilterDecision Unit))
        1 2 3 4 5).pollCount (.failure .unauthorizedClient) =
      (.error (.unauthorizedClient, 0), 0) ∧
    ((OwningServerFilter.new (0 : Nat)
        (fun _ : Nat => (FilterDecision.reject : FilterDecision Unit))
        1 2 3 4 5).inner.run (.ok (Outcome.mk 6 7 8 9 10))).1 =
      .error (.unauthorizedClient, 0) ∧
    (OwningServerFilter.new (0 : Nat)
        (fun _ : Nat => (FilterDecision.reject : FilterDecision Unit))
        1 2 3 4 5).pollCount (.failure .unauthorizedClient) =
      (.error (.unauthorizedClient, 0), 0)) :=
  ⟨rfl,
   claim_C5_denial_short_circuits_framing 0 1 2 3 4 5
     (fun _ : Nat => (FilterDecision.reject : FilterDecision Unit))
     (Outcome.mk 6 7 8 9 10) rfl⟩

/-- Helper: when every single poll makes a framer call exactly on a Ready
resolution and never otherwise, a whole drive of the future makes at most
one framer call, and exactly one precisely when the drive resolves
successfully. -/
theorem driveLoop_framer_count {Step A E : Type} (p : Step → Poll A E × Nat)
    (hp : ∀ step, (p step).1 = .ok .pending → (p step).2 = 0)
    (hq : ∀ step a, (p step).1 = .ok (.ready a) → (p step).2 = 1)
    (he : ∀ step e, (p step).1 = .error e → (p step).2 = 0) :
    ∀ steps, (driveLoop p steps).2 ≤ 1 ∧
      ((driveLoop p steps).2 = 1 ↔
        ∃ a, (driveLoop p steps).1 = some (.ok a)) := by
  intro steps
  induction steps with
  | nil => simp [driveLoop]
  | cons step rest ih =>
    rcases hps : p step with ⟨r, n⟩
    rcases r with e1 | a1
    · have hn : n = 0 := by
        have h1 := he step e1 (by rw [hps])
        rwa [hps] at h1
      subst hn
      simp [driveLoop, hps]
    · rcases a1 with _ | a
      · have hn : n = 0 := by
          have h1 := hp step (by rw [hps])
          rwa [hps] at h1
        subst hn
        simpa [driveLoop, hps] using ih
      · have hn : n = 1 := by
          have h1 := hq step a (by rw [hps])
          rwa [hps] at h1
        subst hn
        simp [driveLoop, hps]

/-- C8: for every role and any sequence of polls driving it, the Framer
constructor is evaluated at most once, and exactly once precisely when the
drive resolves successfully — so a HandshakeOutcome seeds at most one
EncryptedDuplex, none is built while the handshake is unresolved or failed,
and for the gated roles the gated unit resolves successfully only when the
authorization predicate accepted the verified peer. -/
theorem claim_C8_outcome_consumed_once :
    ∀ (S F : Type) (c1 : Client S) (c2 : OwningClient S) (c3 : Server S)
      (c4 : OwningServer S) (c5 : ServerFilter S F)
      (c6 : OwningServerFilter S F),
      (∀ steps, (driveLoop c1.pollCount steps).2 ≤ 1 ∧
        ((driveLoop c1.pollCount steps).2 = 1 ↔
          ∃ d, (driveLoop c1.pollCount steps).1 = some (.ok d))) ∧
      (∀ steps, (driveLoop c2.pollCount steps).2 ≤ 1 ∧
        ((driveLoop c2.pollCount steps).2 = 1 ↔
          ∃ d, (driveLoop c2.pollCount steps).1 = some (.ok d))) ∧
      (∀ steps, (driveLoop c3.pollCount steps).2 ≤ 1 ∧
        ((driveLoop c3.pollCount steps).2 = 1 ↔
          ∃ d, (driveLoop c3.pollCount steps).1 = some (.ok d))) ∧
      (∀ steps, (driveLoop c4.pollCount steps).2 ≤ 1 ∧
        ((driveLoop c4.pollCount steps).2 = 1 ↔
          ∃ d, (driveLoop c4.pollCount steps).1 = some (.ok d))) ∧
      (∀ steps, (driveLoop c5.pollCount steps).2 ≤ 1 ∧
        ((driveLoop c5.pollCount steps).2 = 1 ↔
          ∃ d, (driveLoop c5.pollCount steps).1 = some (.ok d))) ∧
      (∀ steps, (driveLoop c6.pollCount steps).2 ≤ 1 ∧
        ((driveLoop c6.pollCount steps).2 = 1 ↔
          ∃ d, (driveLoop c6.pollCount steps).1 = some (.ok d))) ∧
      (∀ o, ((c5.inner.run (.ok o)).1 = .ok (o, c5.inner.stream) ↔
        c5.inner.filter_fn o.peer_longterm_pk = .accept)) ∧
      (∀ o, ((c6.inner.run (.ok o)).1 = .ok (o, c6.inner.stream) ↔
        c6.inner.filter_fn o.peer_longterm_pk = .accept)) := by
  intro S F c1 c2 c3 c4 c5 c6
  refine ⟨?_, ?_, ?_, ?_, ?_, ?_, ?_, ?_⟩
  · exact driveLoop_framer_count _
      (by intro step; cases step <;>
        simp [Client.pollCount, ClientHandshaker.poll])
      (by intro step a; cases step <;>
        simp [Client.pollCount, ClientHandshaker.poll])
      (by intro step e; cases step <;>
        simp [Client.pollCount, ClientHandshaker.poll])
  · exact driveLoop_framer_count _
      (by intro step; cases step <;>
        simp [OwningClient.pollCount, OwningClientHandshaker.poll])
      (by intro step a; cases step <;>
        simp [OwningClient.pollCount, OwningClientHandshaker.poll])
      (by intro step e; cases step <;>
        simp [OwningClient.pollCount, OwningClientHandshaker.poll])
  · exact driveLoop_framer_count _
      (by intro step; cases step <;>
        simp [Server.pollCount, ServerHandshaker.poll])
      (by intro step a; cases step <;>
        simp [Server.pollCount, ServerHandshaker.poll])
      (by intro step e; cases step <;>
        simp [Server.pollCount, ServerHandshaker.poll])
  · exact driveLoop_framer_count _
      (by intro step; cases step <;>
        simp [OwningServer.pollCount, OwningServerHandshaker.poll])
      (by intro step a; cases step <;>
        simp [OwningServer.pollCount, OwningServerHandshaker.poll])
      (by intro step e; cases step <;>
        simp [OwningServer.pollCount, OwningServerHandshaker.poll])
  · exact driveLoop_framer_count _
      (by intro step; cases step <;>
        simp [ServerFilter.pollCount, ServerHandshakerWithFilter.poll])
      (by intro step a; cases step <;>
        simp [ServerFilter.pollCount, ServerHandshakerWithFilter.poll])
      (by intro step e; cases step <;>
        simp [ServerFilter.pollCount, ServerHandshakerWithFilter.poll])
  · exact driveLoop_framer_count _
      (by intro step; cases step <;>
        simp [OwningServerFilter.pollCount,
          OwningServerHandshakerWithFilter.poll])
      (by intro step a; cases step <;>
        simp [OwningServerFilter.pollCount,
          OwningServerHandshakerWithFilter.poll])
      (by intro step e; cases step <;>
        simp [OwningServerFilter.pollCount,
          OwningServerHandshakerWithFilter.poll])
  · intro o
    cases hf : c5.inner.filter_fn o.peer_longterm_pk <;>
      simp [ServerHandshakerWithFilter.run, hf]
  · intro o
    cases hf : c6.inner.filter_fn o.peer_longterm_pk <;>
      simp [OwningServerHandshakerWithFilter.run, hf]

end SecretStream
